import Mathlib

/-
  A verification development for an excerpt of the KiCad source tree.

  The excerpt contains four C++ files:
    - src/eeschema/sch_field.cpp        (SCH_FIELD: schematic text field entity)
    - src/common/eda_draw_frame.cpp     (EDA_DRAW_FRAME: drawing-frame base class)
    - src/include/settings/settings_manager.h (SETTINGS_MANAGER: declarations only)
    - src/pcbnew/dialogs/panel_setup_feature_constraints_base.h (generated GUI code)

  The definitions below are a shallow embedding of the code relevant to the
  stated properties.  Machine integers are modelled as unbounded Int (the
  quantities involved are screen/schematic coordinates far from overflow);
  C++ integer division (truncation toward zero) is modelled with Int.tdiv.
  Helper code whose implementation is not part of the excerpt (trigo.cpp,
  transform.cpp, eda_rect.cpp, eda_text.cpp, lockfile.cpp,
  settings_manager.cpp) is modelled from the specification; each such
  definition carries a doc comment starting with "Modelled from the spec:".
-/

/-! ### Basic geometry: wxPoint -/

/-- The wxWidgets integer point type used throughout the excerpt. -/
structure wxPoint where
  x : Int
  y : Int
deriving DecidableEq, Repr

instance : Add wxPoint :=
  ⟨fun a b => ⟨a.x + b.x, a.y + b.y⟩⟩

instance : Sub wxPoint :=
  ⟨fun a b => ⟨a.x - b.x, a.y - b.y⟩⟩

theorem wxPoint.ext_xy {a b : wxPoint} (hx : a.x = b.x) (hy : a.y = b.y) : a = b := by
  cases a; cases b; simp_all

/-- Modelled from the spec: the MIRROR macro of KiCad (macros.h, not in the
excerpt) reflects a coordinate about an axis value: the mirrored value of
`v` about `ref` is `-(v - ref) + ref`. -/
def MIRROR (v ref : Int) : Int :=
  -(v - ref) + ref

/-- Modelled from the spec: RotatePoint from KiCad's trigonometry utilities
(trigo.cpp, not in the excerpt) rotates a point about a centre.  Angles are
in tenths of a degree and are first normalized into [0, 3600); the exact
integer special cases for the four right angles (the only angles the
properties below concern) are modelled; other angles use floating-point
trigonometry in the source and are left as the identity here.  KiCad uses a
screen coordinate system with the y axis pointing down, so a rotation by
900 tenths of a degree maps the relative offset (x, y) to (y, -x). -/
def RotatePoint (p centre : wxPoint) (angle : Int) : wxPoint :=
  let ox := p.x - centre.x
  let oy := p.y - centre.y
  let n := angle % 3600
  let r : wxPoint :=
    if n = 0 then ⟨ox, oy⟩
    else if n = 900 then ⟨oy, -ox⟩
    else if n = 1800 then ⟨-ox, -oy⟩
    else if n = 2700 then ⟨-oy, ox⟩
    else ⟨ox, oy⟩
  ⟨r.x + centre.x, r.y + centre.y⟩

/-! ### TRANSFORM: the 2x2 integer orientation matrix of a symbol -/

/-- Modelled from the spec: KiCad's TRANSFORM (transform.h/.cpp, not in the
excerpt) is a 2x2 integer matrix (x1 y1 / x2 y2) describing the
rotation/mirror orientation applied by a parent symbol. -/
structure TRANSFORM where
  x1 : Int
  y1 : Int
  x2 : Int
  y2 : Int
deriving DecidableEq, Repr

/-- Modelled from the spec: TRANSFORM::TransformCoordinate applies the
matrix to a point: (x1*x + y1*y, x2*x + y2*y). -/
def TRANSFORM.TransformCoordinate (t : TRANSFORM) (p : wxPoint) : wxPoint :=
  ⟨t.x1 * p.x + t.y1 * p.y, t.x2 * p.x + t.y2 * p.y⟩

/-- The identity transform TRANSFORM(1, 0, 0, 1) used by the excerpt for
fields without a parent symbol. -/
def TRANSFORM.identityT : TRANSFORM :=
  ⟨1, 0, 0, 1⟩

/-- Determinant x1*y2 - x2*y1 of the orientation matrix. -/
def TRANSFORM.det (t : TRANSFORM) : Int :=
  t.x1 * t.y2 - t.x2 * t.y1

/-- Modelled from the spec: TRANSFORM::InverseTransform (transform.cpp, not
in the excerpt) inverts the matrix through its adjugate divided by the
determinant, using C++ integer division (truncation); a zero determinant is
rejected and yields the identity. -/
def TRANSFORM.InverseTransform (t : TRANSFORM) : TRANSFORM :=
  let d := t.det
  if d = 0 then TRANSFORM.identityT
  else ⟨Int.tdiv t.y2 d, Int.tdiv (-t.y1) d, Int.tdiv (-t.x2) d, Int.tdiv t.x1 d⟩

/-! ### EDA_RECT -/

/-- Modelled from the spec: EDA_RECT (eda_rect.h/.cpp, not in the excerpt)
is a rectangle held as an origin position and a (possibly negative) size. -/
structure EDA_RECT where
  pos : wxPoint
  size : wxPoint
deriving DecidableEq, Repr

/-- The rectangle's origin corner. -/
def EDA_RECT.GetOrigin (r : EDA_RECT) : wxPoint :=
  r.pos

/-- The rectangle's opposite corner, origin + size. -/
def EDA_RECT.GetEnd (r : EDA_RECT) : wxPoint :=
  ⟨r.pos.x + r.size.x, r.pos.y + r.size.y⟩

/-- SetOrigin replaces the origin, leaving the stored size unchanged. -/
def EDA_RECT.SetOrigin (r : EDA_RECT) (p : wxPoint) : EDA_RECT :=
  { r with pos := p }

/-- SetEnd recomputes the size so that the end corner becomes `p`. -/
def EDA_RECT.SetEnd (r : EDA_RECT) (p : wxPoint) : EDA_RECT :=
  { r with size := ⟨p.x - r.pos.x, p.y - r.pos.y⟩ }

/-- Move translates the rectangle by a vector. -/
def EDA_RECT.Move (r : EDA_RECT) (v : wxPoint) : EDA_RECT :=
  { r with pos := r.pos + v }

/-- Normalize flips a negative size to a positive one, shifting the origin
so that the rectangle covers the same points. -/
def EDA_RECT.Normalize (r : EDA_RECT) : EDA_RECT :=
  let py := if r.size.y < 0 then r.pos.y + r.size.y else r.pos.y
  let sy := if r.size.y < 0 then -r.size.y else r.size.y
  let px := if r.size.x < 0 then r.pos.x + r.size.x else r.pos.x
  let sx := if r.size.x < 0 then -r.size.x else r.size.x
  ⟨⟨px, py⟩, ⟨sx, sy⟩⟩

/-- Centre returns origin + size/2 with C++ integer division. -/
def EDA_RECT.Centre (r : EDA_RECT) : wxPoint :=
  ⟨r.pos.x + Int.tdiv r.size.x 2, r.pos.y + Int.tdiv r.size.y 2⟩

/-- Containment test: the position relative to the origin must lie within
the size, after compensating for a negative size. -/
def EDA_RECT.Contains (r : EDA_RECT) (p : wxPoint) : Bool :=
  let relx0 := p.x - r.pos.x
  let rely0 := p.y - r.pos.y
  let sx := if r.size.x < 0 then -r.size.x else r.size.x
  let sy := if r.size.y < 0 then -r.size.y else r.size.y
  let relx := if r.size.x < 0 then relx0 - r.size.x else relx0
  let rely := if r.size.y < 0 then rely0 - r.size.y else rely0
  decide (0 ≤ relx) && decide (0 ≤ rely) && decide (rely ≤ sy) && decide (relx ≤ sx)

/-- Inflate grows the rectangle by a margin on every side. -/
def EDA_RECT.Inflate (r : EDA_RECT) (d : Int) : EDA_RECT :=
  ⟨⟨r.pos.x - d, r.pos.y - d⟩, ⟨r.size.x + 2 * d, r.size.y + 2 * d⟩⟩

/-! ### SCH_FIELD -/

/-- The parent item of a schematic field: none, a symbol (SCH_COMPONENT)
with a position and an orientation transform, or a sheet with a position. -/
inductive SCH_PARENT where
  | none : SCH_PARENT
  | component (pos : wxPoint) (transform : TRANSFORM) : SCH_PARENT
  | sheet (pos : wxPoint) : SCH_PARENT
deriving DecidableEq, Repr

/-- The state of a SCH_FIELD relevant to the properties below.

`textPos` is the text anchor (EDA_TEXT position), `textAngle` the text
rotation in tenths of a degree, `text` the raw field text (GetText),
`visible`/`forceVisible` the display flags, and `parent` the owning item.

`shownText` and `textBox` stand for parts of the base class EDA_TEXT whose
implementation (eda_text.cpp) is not in the excerpt.  Modelled from the
spec: `shownText` is the result of text-variable expansion (GetShownText),
and `textBox` is the unrotated text-layout rectangle that
EDA_TEXT::GetTextBox computes for the shown text from the text metrics,
effective thickness and justification. -/
structure SCH_FIELD where
  textPos : wxPoint
  textAngle : Int
  text : String
  shownText : String
  visible : Bool
  forceVisible : Bool
  parent : SCH_PARENT
  textBox : EDA_RECT
deriving DecidableEq, Repr

/-- SCH_FIELD::GetParentPosition: the position of the owning symbol or
sheet, or the origin when there is no parent. -/
def SCH_FIELD.GetParentPosition (f : SCH_FIELD) : wxPoint :=
  match f.parent with
  | SCH_PARENT.component p _ => p
  | SCH_PARENT.sheet p => p
  | SCH_PARENT.none => ⟨0, 0⟩

/-- The orientation transform the source applies in GetBoundingBox: the
parent symbol's transform when the parent is a symbol, otherwise the
identity TRANSFORM(1, 0, 0, 1). -/
def SCH_FIELD.effectiveTransform (f : SCH_FIELD) : TRANSFORM :=
  match f.parent with
  | SCH_PARENT.component _ t => t
  | _ => TRANSFORM.identityT

/-- SCH_FIELD::GetBoundingBox (sch_field.cpp).  The text box of the shown
text is `f.textBox` (the thickness clamping in the source only feeds
GetTextBox, which is modelled abstractly by that field).  The corners are
taken relative to the parent position, rotated about the text position by
the text angle, mirrored vertically about the text position when the parent
is a symbol (because of the y-axis direction), transformed by the symbol
orientation matrix, translated back, and normalized. -/
def SCH_FIELD.GetBoundingBox (f : SCH_FIELD) : EDA_RECT :=
  let rect := f.textBox
  let origin := f.GetParentPosition
  let pos := f.textPos - origin
  let b0 := rect.GetOrigin - origin
  let e0 := rect.GetEnd - origin
  let b1 := RotatePoint b0 pos f.textAngle
  let e1 := RotatePoint e0 pos f.textAngle
  let b2 : wxPoint :=
    match f.parent with
    | SCH_PARENT.component _ _ => ⟨b1.x, MIRROR b1.y pos.y⟩
    | _ => b1
  let e2 : wxPoint :=
    match f.parent with
    | SCH_PARENT.component _ _ => ⟨e1.x, MIRROR e1.y pos.y⟩
    | _ => e1
  let transform := f.effectiveTransform
  let rect := rect.SetOrigin (transform.TransformCoordinate b2)
  let rect := rect.SetEnd (transform.TransformCoordinate e2)
  let rect := rect.Move origin
  rect.Normalize

/-- SCH_FIELD::IsVoid: true when the raw text is empty. -/
def SCH_FIELD.IsVoid (f : SCH_FIELD) : Bool :=
  f.text.length == 0

/-- SCH_FIELD::HitTest (point overload, sch_field.cpp): hidden or empty
fields are never hit; otherwise the bounding box inflated by the accuracy
is tested for containment. -/
def SCH_FIELD.HitTest (f : SCH_FIELD) (aPosition : wxPoint) (aAccuracy : Int) : Bool :=
  if (!f.visible || f.IsVoid) then
    false
  else
    ((f.GetBoundingBox).Inflate aAccuracy).Contains aPosition

/-- The data of the GRText drawing call emitted by SCH_FIELD::Print. -/
structure GRTextCall where
  textpos : wxPoint
  orient : Int
  shownText : String
deriving DecidableEq, Repr

/-- SCH_FIELD::Print (sch_field.cpp), modelled as the optional GRText call
it emits: nothing is drawn when the field is invisible (and not forced
visible) or void; otherwise the text is drawn centred on the bounding-box
centre plus the offset, with the orientation swapped between horizontal
and vertical when the parent symbol transform has y1 ≠ 0. -/
def SCH_FIELD.Print (f : SCH_FIELD) (aOffset : wxPoint) : Option GRTextCall :=
  if (¬ f.visible ∧ ¬ f.forceVisible) ∨ f.IsVoid then
    Option.none
  else
    let orient :=
      match f.parent with
      | SCH_PARENT.component _ t =>
          if t.y1 ≠ 0 then (if f.textAngle = 0 then 900 else 0) else f.textAngle
      | _ => f.textAngle
    let textpos := (f.GetBoundingBox).Centre + aOffset
    Option.some ⟨textpos, orient, f.shownText⟩

/-- SCH_FIELD::SetPosition (sch_field.cpp): for a field owned by a symbol,
the position is taken relative to the symbol, mapped through the inverse of
the symbol transform, and stored; otherwise it is stored directly. -/
def SCH_FIELD.SetPosition (f : SCH_FIELD) (aPosition : wxPoint) : SCH_FIELD :=
  match f.parent with
  | SCH_PARENT.component cpos t =>
      let relativePos := aPosition - cpos
      let relativePos := (t.InverseTransform).TransformCoordinate relativePos
      { f with textPos := relativePos + cpos }
  | _ => { f with textPos := aPosition }

/-- SCH_FIELD::GetPosition (sch_field.cpp): for a field owned by a symbol,
the stored position is taken relative to the symbol, mapped through the
symbol transform, and translated back; otherwise the stored position. -/
def SCH_FIELD.GetPosition (f : SCH_FIELD) : wxPoint :=
  match f.parent with
  | SCH_PARENT.component cpos t =>
      let relativePos := f.textPos - cpos
      (t.TransformCoordinate relativePos) + cpos
  | _ => f.textPos

/-- Whether the transform the parent applies to the field is the identity:
holds for a parentless field, a sheet parent, or a symbol parent whose
orientation matrix is TRANSFORM(1, 0, 0, 1). -/
def SCH_FIELD.parentTransformIsIdentity (f : SCH_FIELD) : Bool :=
  match f.parent with
  | SCH_PARENT.component _ t => t = TRANSFORM.identityT
  | _ => true

/-! ### EDA_DRAW_FRAME: file locking, canvas type, find/replace history -/

/-- Modelled from the spec: the lock handle kept per opened document (the
wxSingleInstanceChecker created by the global ::LockFile of lockfile.cpp,
not in the excerpt).  Its contents are irrelevant; only whether acquisition
produced a handle matters. -/
structure LOCK_HANDLE where
  id : Nat
deriving DecidableEq, Repr

/-- EDA_DRAW_FRAME::LockFile (eda_draw_frame.cpp): the acquisition result
of the global ::LockFile (null on failure) is stored into m_file_checker,
and the boolean conversion of the stored handle is returned.  The
acquisition outcome is passed in as `acquired`, since lockfile.cpp is not
in the excerpt. -/
def EDA_DRAW_FRAME.LockFile (acquired : Option LOCK_HANDLE) : Option LOCK_HANDLE × Bool :=
  let fileChecker := acquired
  (fileChecker, fileChecker.isSome)

/-- GAL_TYPE_NONE: the "no canvas" value of EDA_DRAW_PANEL_GAL::GAL_TYPE.
Modelled from the spec: the enum (eda_draw_panel_gal.h, not in the excerpt)
has GAL_TYPE_NONE = 0, then GAL_TYPE_OPENGL, GAL_TYPE_CAIRO, GAL_TYPE_LAST. -/
def GAL_TYPE_NONE : Int := 0

/-- GAL_TYPE_OPENGL: the hardware-accelerated backend. -/
def GAL_TYPE_OPENGL : Int := 1

/-- GAL_TYPE_CAIRO: the software raster backend. -/
def GAL_TYPE_CAIRO : Int := 2

/-- GAL_TYPE_LAST: one past the last valid backend value. -/
def GAL_TYPE_LAST : Int := 3

/-- EDA_DRAW_FRAME::LoadCanvasTypeSetting (eda_draw_frame.cpp): reads the
stored canvas type (GAL_TYPE_NONE when there is no settings object), clamps
out-of-range values to GAL_TYPE_NONE, and replaces GAL_TYPE_NONE (the no
longer supported legacy canvas) by the platform default renderer: OpenGL
on macOS (the __WXMAC__ build, passed as `isMac`), Cairo elsewhere. -/
def EDA_DRAW_FRAME.LoadCanvasTypeSetting (cfgCanvasType : Option Int) (isMac : Bool) : Int :=
  let canvasType :=
    match cfgCanvasType with
    | Option.some v => v
    | Option.none => GAL_TYPE_NONE
  let canvasType :=
    if canvasType < GAL_TYPE_NONE ∨ canvasType ≥ GAL_TYPE_LAST then GAL_TYPE_NONE
    else canvasType
  if canvasType = GAL_TYPE_NONE then
    if isMac then GAL_TYPE_OPENGL else GAL_TYPE_CAIRO
  else
    canvasType

/-- The frame identifiers compared against in saveCanvasTypeSetting.
Modelled from the spec: the FRAME_T enum (frame_type.h, not in the excerpt)
has many more members; only the four allowed frames and a representative
of the others matter here. -/
inductive FRAME_T where
  | FRAME_SCH : FRAME_T
  | FRAME_PCB_EDITOR : FRAME_T
  | FRAME_FOOTPRINT_EDITOR : FRAME_T
  | FRAME_GERBER : FRAME_T
  | FRAME_SCH_LIB_EDITOR : FRAME_T
  | FRAME_PL_EDITOR : FRAME_T
deriving DecidableEq, Repr

/-- The allowed_frames array of EDA_DRAW_FRAME::saveCanvasTypeSetting. -/
def allowed_frames : List FRAME_T :=
  [FRAME_T.FRAME_SCH, FRAME_T.FRAME_PCB_EDITOR, FRAME_T.FRAME_FOOTPRINT_EDITOR,
   FRAME_T.FRAME_GERBER]

/-- EDA_DRAW_FRAME::saveCanvasTypeSetting (eda_draw_frame.cpp): returns the
pair of the (possibly updated) stored canvas type (`Option.none` models a
null settings pointer) and the boolean result.  The source returns false on
the disallowed-frame path, on the invalid-canvas-type path, and also at the
end of the successful path that stores the value. -/
def EDA_DRAW_FRAME.saveCanvasTypeSetting (ident : FRAME_T) (cfgCanvasType : Option Int)
    (aCanvasType : Int) : Option Int × Bool :=
  let allow_save := ident ∈ allowed_frames
  if ¬ allow_save then
    (cfgCanvasType, false)
  else if aCanvasType < GAL_TYPE_NONE ∨ aCanvasType ≥ GAL_TYPE_LAST then
    (cfgCanvasType, false)
  else
    match cfgCanvasType with
    | Option.some _ => (Option.some aCanvasType, false)
    | Option.none => (cfgCanvasType, false)

/-- FR_HISTORY_LIST_CNT (eda_draw_frame.cpp line 61): the maximum size of
the find/replace history stacks saved to the configuration. -/
def FR_HISTORY_LIST_CNT : Nat := 10

/-- The history-saving loop of EDA_DRAW_FRAME::SaveSettings
(eda_draw_frame.cpp): after clearing the stored list, entries are pushed
for every index i with i < count and i < FR_HISTORY_LIST_CNT, in order. -/
def saveFrHistory (hist : List String) : List String :=
  (List.range (min hist.length FR_HISTORY_LIST_CNT)).map (fun i => hist.getD i "")

/-- The find/replace part of EDA_DRAW_FRAME::SaveSettings, modelled as the
pair of history lists written into aCfg->m_FindReplace. -/
def EDA_DRAW_FRAME.SaveSettings_frHistories (findHist replaceHist : List String) :
    List String × List String :=
  (saveFrHistory findHist, saveFrHistory replaceHist)

/-! ### SETTINGS_MANAGER (declarations only in the excerpt; implementations
modelled from the spec) -/

/-- Modelled from the spec: the digit-string parser used by
SETTINGS_MANAGER::extractVersion (settings_manager.cpp, not in the
excerpt) to turn one component of a "major.minor" version string into a
number.  Returns none on an empty or non-digit string. -/
def parseDecimal (cs : List Char) (acc : Nat) : Option Nat :=
  match cs with
  | [] => Option.some acc
  | c :: rest =>
      if c.isDigit then parseDecimal rest (acc * 10 + (c.toNat - '0'.toNat))
      else Option.none

/-- Modelled from the spec: SETTINGS_MANAGER::extractVersion splits a
settings version string such as "5.99" at the "." and stores the numeric
major and minor parts, reporting whether extraction succeeded. -/
def SETTINGS_MANAGER.extractVersion (aVersionString : String) : Option (Nat × Nat) :=
  match (aVersionString.toList.splitOn '.') with
  | [majorChars, minorChars] =>
      if majorChars ≠ [] ∧ minorChars ≠ [] then
        match parseDecimal majorChars 0, parseDecimal minorChars 0 with
        | Option.some major, Option.some minor => Option.some (major, minor)
        | _, _ => Option.none
      else
        Option.none
  | _ => Option.none

/-- Modelled from the spec: SETTINGS_MANAGER::compareVersions compares two
settings versions such as "5.99" and "6.0" by their numeric (major, minor)
pairs: -1 if the first is older than the second, 1 if newer, 0 otherwise
(the header documents the result only for comparable versions; failed
extraction yields 0 here). -/
def SETTINGS_MANAGER.compareVersions (aFirst aSecond : String) : Int :=
  match SETTINGS_MANAGER.extractVersion aFirst, SETTINGS_MANAGER.extractVersion aSecond with
  | Option.some (major1, minor1), Option.some (major2, minor2) =>
      if major1 < major2 then -1
      else if major1 > major2 then 1
      else if minor1 < minor2 then -1
      else if minor1 > minor2 then 1
      else 0
  | _, _ => 0

/-- Modelled from the spec: SETTINGS_MANAGER::calculateUserSettingsPath
determines the base path for user settings files with this order of
precedence: the KICAD_CONFIG_HOME environment variable if set (and aUseEnv
is true); otherwise the XDG_CONFIG_HOME environment variable; otherwise the
platform default user-configuration directory
(wxStandardPaths::GetUserConfigDir, with ".config" appended on Linux).
When aIncludeVer is true the current settings version is appended as a
subdirectory.  The process environment is passed in as the lookup function
`env`. -/
def SETTINGS_MANAGER.calculateUserSettingsPath (env : String → Option String)
    (platformUserConfigDir : String) (isLinux : Bool) (settingsVersion : String)
    (aIncludeVer : Bool) (aUseEnv : Bool) : String :=
  let platformDefault :=
    if isLinux then platformUserConfigDir ++ "/.config" else platformUserConfigDir
  let xdgOrDefault :=
    match env "XDG_CONFIG_HOME" with
    | Option.some p => p
    | Option.none => platformDefault
  let base :=
    if aUseEnv then
      match env "KICAD_CONFIG_HOME" with
      | Option.some p => p
      | Option.none => xdgOrDefault
    else
      xdgOrDefault
  if aIncludeVer then base ++ "/" ++ settingsVersion else base

/-- Modelled from the spec: SETTINGS_MANAGER::IsSettingsPathValid checks
whether a path is probably a valid KiCad configuration directory by testing
whether a file called "kicad_common" exists in it.  The filesystem is
passed in as the existence predicate `fileExists`. -/
def SETTINGS_MANAGER.IsSettingsPathValid (fileExists : String → Bool)
    (aPath : String) : Bool :=
  fileExists (aPath ++ "/kicad_common")

/-! ### Helper lemmas -/

theorem wxPoint.add_def (a b : wxPoint) : a + b = ⟨a.x + b.x, a.y + b.y⟩ :=
  rfl

theorem wxPoint.sub_def (a b : wxPoint) : a - b = ⟨a.x - b.x, a.y - b.y⟩ :=
  rfl

theorem tdiv_double (k : Int) : Int.tdiv (2 * k) 2 = k :=
  Int.mul_tdiv_cancel_left k (by decide)

/-- One coordinate of Centre after Normalize: if the endpoints p and p + s
sum to 2c, the integer midpoint lands exactly on c. -/
theorem norm_centre_coord (p s c : Int) (h : p + (p + s) = 2 * c) :
    (if s < 0 then p + s else p) + Int.tdiv (if s < 0 then -s else s) 2 = c := by
  split_ifs with hlt
  · have h2 : -s = 2 * (p - c) := by omega
    rw [h2, tdiv_double]
    omega
  · have h2 : s = 2 * (c - p) := by omega
    rw [h2, tdiv_double]
    omega

/-- The centre of the rectangle assembled at the end of GetBoundingBox:
SetOrigin B, SetEnd E, Move o, Normalize; the centre is the midpoint of
the translated corners. -/
theorem centre_of_corners (r0 : EDA_RECT) (B E o c : wxPoint)
    (hx : B.x + E.x + 2 * o.x = 2 * c.x)
    (hy : B.y + E.y + 2 * o.y = 2 * c.y) :
    ((((r0.SetOrigin B).SetEnd E).Move o).Normalize).Centre = c := by
  have gx := norm_centre_coord (B.x + o.x) (E.x - B.x) c.x (by omega)
  have gy := norm_centre_coord (B.y + o.y) (E.y - B.y) c.y (by omega)
  apply wxPoint.ext_xy
  · simpa [EDA_RECT.SetOrigin, EDA_RECT.SetEnd, EDA_RECT.Move, EDA_RECT.Normalize,
      EDA_RECT.Centre, wxPoint.add_def] using gx
  · simpa [EDA_RECT.SetOrigin, EDA_RECT.SetEnd, EDA_RECT.Move, EDA_RECT.Normalize,
      EDA_RECT.Centre, wxPoint.add_def] using gy

theorem RotatePoint_0 (p c : wxPoint) : RotatePoint p c 0 = ⟨p.x, p.y⟩ := by
  simp [RotatePoint]

theorem RotatePoint_900 (p c : wxPoint) :
    RotatePoint p c 900 = ⟨(p.y - c.y) + c.x, -(p.x - c.x) + c.y⟩ := by
  simp [RotatePoint]

theorem RotatePoint_1800 (p c : wxPoint) :
    RotatePoint p c 1800 = ⟨-(p.x - c.x) + c.x, -(p.y - c.y) + c.y⟩ := by
  simp [RotatePoint]

theorem RotatePoint_2700 (p c : wxPoint) :
    RotatePoint p c 2700 = ⟨-(p.y - c.y) + c.x, (p.x - c.x) + c.y⟩ := by
  simp [RotatePoint]

/-! ### Claim C1 -/

/-- A field whose text box is left/top justified from the anchor: the
anchor (0,0) is the box's origin corner, not its midpoint. -/
def c1Field : SCH_FIELD :=
  ⟨⟨0, 0⟩, 0, "REF", "REF", true, false, SCH_PARENT.none, ⟨⟨0, 0⟩, ⟨2, 2⟩⟩⟩

/-- C1 counterexample: for the concrete field `c1Field`, whose rotation is
0 and whose parent transform is the identity, the centre of GetBoundingBox
is (1, 1), not the text anchor (0, 0): the claim as stated is false, since
it does not restrict how the text box sits around the anchor. -/
theorem C1_centre_counterexample :
    c1Field.textAngle = 0 ∧
    c1Field.parentTransformIsIdentity = true ∧
    (c1Field.GetBoundingBox).Centre ≠ c1Field.textPos := by
  refine ⟨rfl, rfl, ?_⟩
  decide

/-- C1 (amended): for every SCH_FIELD whose text rotation angle is 0, 90,
180 or 270 degrees (0/900/1800/2700 tenths), whose parent transform is the
identity, and whose unrotated text box is symmetric about the text anchor
(the two corners sum to twice the anchor, as holds for centred
justification with even box dimensions), the centre of the rectangle
returned by GetBoundingBox equals the text anchor GetTextPos. -/
theorem C1_centre_on_anchor (f : SCH_FIELD)
    (hang : f.textAngle = 0 ∨ f.textAngle = 900 ∨ f.textAngle = 1800 ∨ f.textAngle = 2700)
    (hpar : f.parentTransformIsIdentity = true)
    (hsymx : f.textBox.pos.x + (f.textBox.pos.x + f.textBox.size.x) = 2 * f.textPos.x)
    (hsymy : f.textBox.pos.y + (f.textBox.pos.y + f.textBox.size.y) = 2 * f.textPos.y) :
    (f.GetBoundingBox).Centre = f.textPos := by
  obtain ⟨tp, ta, tx, st, vis, fv, par, tb⟩ := f
  simp only [SCH_FIELD.parentTransformIsIdentity, SCH_FIELD.textBox, SCH_FIELD.textPos,
    SCH_FIELD.textAngle] at hpar hsymx hsymy hang
  rcases par with _ | ⟨cpos, t⟩ | spos <;>
    [skip; (simp only [decide_eq_true_eq] at hpar; subst hpar); skip] <;>
    rcases hang with h | h | h | h <;> subst h <;>
    simp only [SCH_FIELD.GetBoundingBox, SCH_FIELD.GetParentPosition,
      SCH_FIELD.effectiveTransform, EDA_RECT.GetOrigin, EDA_RECT.GetEnd,
      wxPoint.sub_def, RotatePoint_0, RotatePoint_900, RotatePoint_1800, RotatePoint_2700,
      MIRROR, TRANSFORM.identityT, TRANSFORM.TransformCoordinate] <;>
    refine centre_of_corners _ _ _ _ _ ?_ ?_ <;> simp <;> omega

/-- Witness for C1_centre_on_anchor: a field rotated 90 degrees, owned by
a symbol with the identity transform, whose text box is symmetric about
the anchor; the bounding-box centre equals the anchor (7, 5). -/
theorem C1_centre_on_anchor_witness :
    (SCH_FIELD.GetBoundingBox
        ⟨⟨7, 5⟩, 900, "U1", "U1", true, false,
         SCH_PARENT.component ⟨10, 20⟩ TRANSFORM.identityT, ⟨⟨4, 3⟩, ⟨6, 4⟩⟩⟩).Centre =
      (⟨7, 5⟩ : wxPoint) :=
  C1_centre_on_anchor
    ⟨⟨7, 5⟩, 900, "U1", "U1", true, false,
     SCH_PARENT.component ⟨10, 20⟩ TRANSFORM.identityT, ⟨⟨4, 3⟩, ⟨6, 4⟩⟩⟩
    (Or.inr (Or.inl rfl)) (by decide) (by decide) (by decide)

/-! ### Claim C2 -/

theorem tdiv_neg_one (a : Int) : Int.tdiv a (-1) = -a := by
  have h : ((-1 : Int)) = -(1 : Int) := rfl
  rw [h, Int.tdiv_neg, Int.tdiv_one]

/-- Applying a rotation/mirror transform (determinant 1 or -1) after its
integer inverse returns the original point. -/
theorem transform_roundtrip (t : TRANSFORM) (hdet : t.det = 1 ∨ t.det = -1) (v : wxPoint) :
    t.TransformCoordinate ((t.InverseTransform).TransformCoordinate v) = v := by
  have hd0 : ¬ t.det = 0 := by rcases hdet with h | h <;> rw [h] <;> decide
  have hinv : t.InverseTransform =
      ⟨Int.tdiv t.y2 t.det, Int.tdiv (-t.y1) t.det, Int.tdiv (-t.x2) t.det,
       Int.tdiv t.x1 t.det⟩ := by
    simp only [TRANSFORM.InverseTransform]
    rw [if_neg hd0]
  have h2 : t.x1 * t.y2 - t.x2 * t.y1 = t.det := rfl
  rcases hdet with h | h
  all_goals rw [hinv, h]
  all_goals apply wxPoint.ext_xy
  all_goals simp only [TRANSFORM.TransformCoordinate, Int.tdiv_one, tdiv_neg_one, neg_neg]
  · linear_combination v.x * (h2.trans h)
  · linear_combination v.y * (h2.trans h)
  · linear_combination (-v.x) * (h2.trans h)
  · linear_combination (-v.y) * (h2.trans h)

theorem wxPoint.add_sub_cancel_pt (a b : wxPoint) : a + b - b = a := by
  apply wxPoint.ext_xy <;> simp [wxPoint.add_def, wxPoint.sub_def]

theorem wxPoint.sub_add_cancel_pt (a b : wxPoint) : a - b + b = a := by
  apply wxPoint.ext_xy <;> simp [wxPoint.add_def, wxPoint.sub_def]

/-- C2: for every SCH_FIELD whose parent is a symbol with an invertible
orientation transform (a rotation/mirror matrix, determinant 1 or -1) and
every point p, SetPosition p followed by GetPosition returns p: the
inverse transform applied by SetPosition and the forward transform applied
by GetPosition compose to the identity on the position relative to the
parent. -/
theorem C2_set_get_position_roundtrip (f : SCH_FIELD) (cpos : wxPoint) (t : TRANSFORM)
    (hpar : f.parent = SCH_PARENT.component cpos t)
    (hdet : t.det = 1 ∨ t.det = -1) (p : wxPoint) :
    (f.SetPosition p).GetPosition = p := by
  obtain ⟨tp, ta, tx, st, vis, fv, par, tb⟩ := f
  simp only [SCH_FIELD.parent] at hpar
  subst hpar
  simp only [SCH_FIELD.SetPosition, SCH_FIELD.GetPosition]
  rw [wxPoint.add_sub_cancel_pt, transform_roundtrip t hdet (p - cpos),
    wxPoint.sub_add_cancel_pt]

/-- Witness for C2_set_get_position_roundtrip: a field owned by a symbol at
(3, 4) with the mirror transform (0 -1 / -1 0) (determinant -1);
SetPosition (11, -7) followed by GetPosition returns (11, -7). -/
theorem C2_set_get_position_roundtrip_witness :
    (SCH_FIELD.GetPosition
        (SCH_FIELD.SetPosition
          ⟨⟨0, 0⟩, 0, "U1", "U1", true, false,
           SCH_PARENT.component ⟨3, 4⟩ ⟨0, -1, -1, 0⟩, ⟨⟨0, 0⟩, ⟨1, 1⟩⟩⟩
          ⟨11, -7⟩)) =
      (⟨11, -7⟩ : wxPoint) :=
  C2_set_get_position_roundtrip
    ⟨⟨0, 0⟩, 0, "U1", "U1", true, false,
     SCH_PARENT.component ⟨3, 4⟩ ⟨0, -1, -1, 0⟩, ⟨⟨0, 0⟩, ⟨1, 1⟩⟩⟩
    ⟨3, 4⟩ ⟨0, -1, -1, 0⟩ rfl (Or.inr (by decide)) ⟨11, -7⟩

/-! ### Claim C3 -/

/-- C3: for every SCH_FIELD, IsVoid() is true exactly when the raw text
has length zero; a void field is never hit by the point HitTest, for any
position and accuracy; and Print emits no text for a void field, for any
offset. -/
theorem C3_void_fields_inert (f : SCH_FIELD) :
    (f.IsVoid = true ↔ f.text.length = 0) ∧
    (f.IsVoid = true → ∀ (p : wxPoint) (acc : Int), f.HitTest p acc = false) ∧
    (f.IsVoid = true → ∀ off : wxPoint, f.Print off = Option.none) := by
  refine ⟨?_, ?_, ?_⟩
  · simp [SCH_FIELD.IsVoid]
  · intro h p acc
    simp [SCH_FIELD.HitTest, h]
  · intro h off
    simp [SCH_FIELD.Print, h]

/-- Witness for C3_void_fields_inert: a concrete visible field with empty
text is void, is not hit at the origin with accuracy 5, and prints
nothing. -/
theorem C3_void_fields_inert_witness :
    (SCH_FIELD.IsVoid
        ⟨⟨0, 0⟩, 0, "", "", true, true, SCH_PARENT.none, ⟨⟨0, 0⟩, ⟨4, 4⟩⟩⟩ = true) ∧
    (SCH_FIELD.HitTest
        ⟨⟨0, 0⟩, 0, "", "", true, true, SCH_PARENT.none, ⟨⟨0, 0⟩, ⟨4, 4⟩⟩⟩ ⟨0, 0⟩ 5 = false) ∧
    (SCH_FIELD.Print
        ⟨⟨0, 0⟩, 0, "", "", true, true, SCH_PARENT.none, ⟨⟨0, 0⟩, ⟨4, 4⟩⟩⟩ ⟨0, 0⟩ =
      Option.none) := by
  have h := C3_void_fields_inert
    ⟨⟨0, 0⟩, 0, "", "", true, true, SCH_PARENT.none, ⟨⟨0, 0⟩, ⟨4, 4⟩⟩⟩
  have hv : SCH_FIELD.IsVoid
      ⟨⟨0, 0⟩, 0, "", "", true, true, SCH_PARENT.none, ⟨⟨0, 0⟩, ⟨4, 4⟩⟩⟩ = true := by decide
  exact ⟨hv, h.2.1 hv ⟨0, 0⟩ 5, h.2.2 hv ⟨0, 0⟩⟩

/-! ### Claim C4 -/

/-- C4: compareVersions orders "major.minor" settings version strings by
their numeric component pairs: for every two parseable version strings it
returns -1 exactly when the first pair is lexicographically smaller, 1
exactly when larger, and 0 exactly when the pairs are equal; in
particular the comparison is numeric, not lexicographic. -/
theorem C4_compareVersions_numeric (a b : String) (ma mi mb nb : Nat)
    (ha : SETTINGS_MANAGER.extractVersion a = Option.some (ma, mi))
    (hb : SETTINGS_MANAGER.extractVersion b = Option.some (mb, nb)) :
    (SETTINGS_MANAGER.compareVersions a b = -1 ↔ (ma < mb ∨ (ma = mb ∧ mi < nb))) ∧
    (SETTINGS_MANAGER.compareVersions a b = 1 ↔ (mb < ma ∨ (ma = mb ∧ nb < mi))) ∧
    (SETTINGS_MANAGER.compareVersions a b = 0 ↔ (ma = mb ∧ mi = nb)) := by
  simp only [SETTINGS_MANAGER.compareVersions, ha, hb]
  refine ⟨?_, ?_, ?_⟩ <;> split_ifs <;> simp_all <;> omega

/-- Witness for C4_compareVersions_numeric, also checking the spec's two
examples: "5.1" parses as (5, 1), "5.99" as (5, 99) and "6.0" as (6, 0);
"5.1" is older than "5.99" and "6.0" is newer than "5.99". -/
theorem C4_compareVersions_numeric_witness :
    SETTINGS_MANAGER.compareVersions "5.1" "5.99" = -1 ∧
    SETTINGS_MANAGER.compareVersions "6.0" "5.99" = 1 := by
  have h1 := C4_compareVersions_numeric "5.1" "5.99" 5 1 5 99 (by decide) (by decide)
  have h2 := C4_compareVersions_numeric "6.0" "5.99" 6 0 5 99 (by decide) (by decide)
  exact ⟨h1.1.mpr (Or.inr ⟨rfl, by omega⟩), h2.2.1.mpr (Or.inl (by omega))⟩

/-! ### Claim C5 -/

/-- C5: LoadCanvasTypeSetting always returns a valid, supported backend:
for every stored value and platform the result is OpenGL or Cairo (in
particular never GAL_TYPE_NONE and never out of range), and whenever the
stored value is out of the valid enum range or equals GAL_TYPE_NONE the
result is exactly the platform default renderer: OpenGL on macOS, Cairo
elsewhere. -/
theorem C5_load_canvas_type_valid (cfg : Option Int) (isMac : Bool) :
    (EDA_DRAW_FRAME.LoadCanvasTypeSetting cfg isMac = GAL_TYPE_OPENGL ∨
     EDA_DRAW_FRAME.LoadCanvasTypeSetting cfg isMac = GAL_TYPE_CAIRO) ∧
    EDA_DRAW_FRAME.LoadCanvasTypeSetting cfg isMac ≠ GAL_TYPE_NONE ∧
    (∀ v : Int, cfg = Option.some v →
      (v < GAL_TYPE_NONE ∨ v ≥ GAL_TYPE_LAST ∨ v = GAL_TYPE_NONE) →
      EDA_DRAW_FRAME.LoadCanvasTypeSetting cfg isMac =
        (if isMac then GAL_TYPE_OPENGL else GAL_TYPE_CAIRO)) := by
  refine ⟨?_, ?_, ?_⟩
  · rcases cfg with _ | v <;>
      simp only [EDA_DRAW_FRAME.LoadCanvasTypeSetting, GAL_TYPE_NONE, GAL_TYPE_OPENGL,
        GAL_TYPE_CAIRO, GAL_TYPE_LAST] <;>
      split_ifs <;> simp_all <;> omega
  · rcases cfg with _ | v <;>
      simp only [EDA_DRAW_FRAME.LoadCanvasTypeSetting, GAL_TYPE_NONE, GAL_TYPE_OPENGL,
        GAL_TYPE_CAIRO, GAL_TYPE_LAST] <;>
      split_ifs <;> simp_all
  · intro v hv hrange
    subst hv
    simp only [EDA_DRAW_FRAME.LoadCanvasTypeSetting, GAL_TYPE_NONE, GAL_TYPE_OPENGL,
      GAL_TYPE_CAIRO, GAL_TYPE_LAST] at *
    split_ifs <;> simp_all

/-- Witness for C5_load_canvas_type_valid: the out-of-range stored value 7
on a non-macOS platform falls back to Cairo. -/
theorem C5_load_canvas_type_valid_witness :
    EDA_DRAW_FRAME.LoadCanvasTypeSetting (Option.some 7) false = GAL_TYPE_CAIRO := by
  have h := (C5_load_canvas_type_valid (Option.some 7) false).2.2 7 rfl
    (Or.inr (Or.inl (by decide)))
  simpa using h

/-! ### Claim C6 -/

/-- C6: EDA_DRAW_FRAME::LockFile stores the acquisition result in
m_file_checker and returns true exactly when the stored handle is
non-null; in particular it returns false exactly when acquisition
failed. -/
theorem C6_lockfile_reports_acquisition (acquired : Option LOCK_HANDLE) :
    ((EDA_DRAW_FRAME.LockFile acquired).2 = true ↔
      (EDA_DRAW_FRAME.LockFile acquired).1 ≠ Option.none) ∧
    (EDA_DRAW_FRAME.LockFile acquired).1 = acquired ∧
    ((EDA_DRAW_FRAME.LockFile acquired).2 = false ↔ acquired = Option.none) := by
  rcases acquired with _ | h <;> simp [EDA_DRAW_FRAME.LockFile]

/-- Witness for C6_lockfile_reports_acquisition: with a successful
acquisition the call returns true, with a failed one it returns false. -/
theorem C6_lockfile_reports_acquisition_witness :
    (EDA_DRAW_FRAME.LockFile (Option.some ⟨0⟩)).2 = true ∧
    (EDA_DRAW_FRAME.LockFile Option.none).2 = false := by
  refine ⟨?_, ?_⟩
  · exact (C6_lockfile_reports_acquisition (Option.some ⟨0⟩)).1.mpr (by decide)
  · exact (C6_lockfile_reports_acquisition Option.none).2.2.mpr rfl

/-! ### Claim C7 -/

/-- C7: the user settings base path follows a fixed order of precedence:
when KICAD_CONFIG_HOME is set it alone determines the base (the
XDG_CONFIG_HOME value and the platform directory are ignored); otherwise a
set XDG_CONFIG_HOME determines it; otherwise the platform default
user-configuration directory is used, with ".config" appended on Linux. -/
theorem C7_user_settings_path_precedence (env : String → Option String)
    (pd : String) (lin : Bool) (ver : String) (incVer : Bool) :
    (∀ p, env "KICAD_CONFIG_HOME" = Option.some p →
      SETTINGS_MANAGER.calculateUserSettingsPath env pd lin ver incVer true =
        (if incVer then p ++ "/" ++ ver else p)) ∧
    (∀ q, env "KICAD_CONFIG_HOME" = Option.none →
      env "XDG_CONFIG_HOME" = Option.some q →
      SETTINGS_MANAGER.calculateUserSettingsPath env pd lin ver incVer true =
        (if incVer then q ++ "/" ++ ver else q)) ∧
    (env "KICAD_CONFIG_HOME" = Option.none →
      env "XDG_CONFIG_HOME" = Option.none →
      SETTINGS_MANAGER.calculateUserSettingsPath env pd lin ver incVer true =
        (if incVer then (if lin then pd ++ "/.config" else pd) ++ "/" ++ ver
         else (if lin then pd ++ "/.config" else pd))) := by
  refine ⟨?_, ?_, ?_⟩
  · intro p hp
    simp [SETTINGS_MANAGER.calculateUserSettingsPath, hp]
  · intro q hk hx
    simp [SETTINGS_MANAGER.calculateUserSettingsPath, hk, hx]
  · intro hk hx
    simp [SETTINGS_MANAGER.calculateUserSettingsPath, hk, hx]

/-- Witness for C7_user_settings_path_precedence: in an environment where
both KICAD_CONFIG_HOME and XDG_CONFIG_HOME are set, the former wins and
the version subdirectory is appended. -/
theorem C7_user_settings_path_precedence_witness :
    SETTINGS_MANAGER.calculateUserSettingsPath
        (fun k => if k = "KICAD_CONFIG_HOME" then Option.some "/kch"
                  else Option.some "/xdg")
        "/home/user" true "5.99" true true = "/kch/5.99" := by
  have h := (C7_user_settings_path_precedence
      (fun k => if k = "KICAD_CONFIG_HOME" then Option.some "/kch"
                else Option.some "/xdg")
      "/home/user" true "5.99" true).1 "/kch" (by decide)
  simpa using h

/-! ### Claim C8 -/

/-- C8: IsSettingsPathValid returns true exactly when the marker file
"kicad_common" exists in the given directory, and its result depends on
nothing else: two filesystems that agree on that one file produce the
same verdict. -/
theorem C8_settings_path_marker (fs1 fs2 : String → Bool) (path : String) :
    (SETTINGS_MANAGER.IsSettingsPathValid fs1 path = true ↔
      fs1 (path ++ "/kicad_common") = true) ∧
    (fs1 (path ++ "/kicad_common") = fs2 (path ++ "/kicad_common") →
      SETTINGS_MANAGER.IsSettingsPathValid fs1 path =
        SETTINGS_MANAGER.IsSettingsPathValid fs2 path) := by
  constructor
  · simp [SETTINGS_MANAGER.IsSettingsPathValid]
  · intro h
    simp [SETTINGS_MANAGER.IsSettingsPathValid, h]

/-- Witness for C8_settings_path_marker: a filesystem holding exactly
"/cfg/kicad_common" validates "/cfg". -/
theorem C8_settings_path_marker_witness :
    SETTINGS_MANAGER.IsSettingsPathValid
      (fun s => decide (s = "/cfg/kicad_common")) "/cfg" = true :=
  (C8_settings_path_marker (fun s => decide (s = "/cfg/kicad_common"))
      (fun s => decide (s = "/cfg/kicad_common")) "/cfg").1.mpr (by decide)

/-! ### Claim C9 -/

/-- C9: saveCanvasTypeSetting returns false on every path — for every
frame identity, settings state and canvas type — including the successful
path (allowed frame, in-range canvas type, non-null settings) on which
the value is actually stored; the boolean result never distinguishes
success from failure. -/
theorem C9_save_canvas_type_returns_false (ident : FRAME_T) (cfg : Option Int) (t : Int) :
    (EDA_DRAW_FRAME.saveCanvasTypeSetting ident cfg t).2 = false ∧
    (ident ∈ allowed_frames → GAL_TYPE_NONE ≤ t → t < GAL_TYPE_LAST →
      ∀ v, cfg = Option.some v →
        (EDA_DRAW_FRAME.saveCanvasTypeSetting ident cfg t).1 = Option.some t) := by
  constructor
  · simp only [EDA_DRAW_FRAME.saveCanvasTypeSetting]
    split_ifs <;> rcases cfg with _ | v <;> simp
  · intro hmem h0 h1 v hv
    subst hv
    simp only [GAL_TYPE_NONE, GAL_TYPE_LAST] at h0 h1
    simp only [EDA_DRAW_FRAME.saveCanvasTypeSetting, GAL_TYPE_NONE, GAL_TYPE_LAST]
    rw [if_neg (by simp [hmem]), if_neg (by omega)]

/-- Witness for C9_save_canvas_type_returns_false: on the successful path
(schematic frame, valid canvas type Cairo, a settings object present) the
value is stored yet the function still returns false. -/
theorem C9_save_canvas_type_returns_false_witness :
    (EDA_DRAW_FRAME.saveCanvasTypeSetting FRAME_T.FRAME_SCH (Option.some 1) 2).2 = false ∧
    (EDA_DRAW_FRAME.saveCanvasTypeSetting FRAME_T.FRAME_SCH (Option.some 1) 2).1 =
      Option.some 2 := by
  have h := C9_save_canvas_type_returns_false FRAME_T.FRAME_SCH (Option.some 1) 2
  exact ⟨h.1, h.2 (by decide) (by decide) (by decide) 1 rfl⟩

/-! ### Claim C10 -/

theorem range_map_getD_eq_take (l : List String) :
    ∀ k : Nat, (List.range (min l.length k)).map (fun i => l.getD i "") = l.take k := by
  induction l with
  | nil =>
    intro k
    simp
  | cons a t ih =>
    intro k
    cases k with
    | zero => simp
    | succ k =>
      have hmin : min (a :: t).length (k + 1) = min t.length k + 1 := by
        simp [List.length_cons, Nat.succ_min_succ]
      rw [hmin, List.range_succ_eq_map, List.map_cons, List.map_map]
      simp only [Function.comp_def, Nat.succ_eq_add_one, List.getD_cons_zero,
        List.getD_cons_succ, List.take_succ_cons]
      rw [ih k]

theorem saveFrHistory_eq_take (l : List String) :
    saveFrHistory l = l.take FR_HISTORY_LIST_CNT :=
  range_map_getD_eq_take l FR_HISTORY_LIST_CNT

/-- C10: the find/replace histories written by SaveSettings are exactly the
first min(FR_HISTORY_LIST_CNT, length) entries of the in-memory lists in
order (List.take 10), so each saved list has at most 10 entries and
anything beyond the tenth entry is dropped. -/
theorem C10_fr_history_truncated (findHist replaceHist : List String) :
    (EDA_DRAW_FRAME.SaveSettings_frHistories findHist replaceHist).1 =
      findHist.take FR_HISTORY_LIST_CNT ∧
    (EDA_DRAW_FRAME.SaveSettings_frHistories findHist replaceHist).2 =
      replaceHist.take FR_HISTORY_LIST_CNT ∧
    (EDA_DRAW_FRAME.SaveSettings_frHistories findHist replaceHist).1.length ≤ 10 ∧
    (EDA_DRAW_FRAME.SaveSettings_frHistories findHist replaceHist).2.length ≤ 10 := by
  refine ⟨saveFrHistory_eq_take findHist, saveFrHistory_eq_take replaceHist, ?_, ?_⟩
  · rw [show (EDA_DRAW_FRAME.SaveSettings_frHistories findHist replaceHist).1 =
        saveFrHistory findHist from rfl, saveFrHistory_eq_take, List.length_take]
    exact le_trans (Nat.min_le_left _ _) (le_refl 10)
  · rw [show (EDA_DRAW_FRAME.SaveSettings_frHistories findHist replaceHist).2 =
        saveFrHistory replaceHist from rfl, saveFrHistory_eq_take, List.length_take]
    exact le_trans (Nat.min_le_left _ _) (le_refl 10)
